import Mathlib

/-!
Shallow embedding of the forbill-ai repository: the wallet/ledger service
(app/services/wallet.py, app/crud/user.py), the Payrant funding-webhook
handler (app/api/webhooks/payrant.py), the airtime network auto-detection
(app/api/webhooks/whatsapp.py), and the WhatsApp command parser with its
phone normalizer (app/services/commands.py).

Modelling conventions:
* Python `float` money amounts are modelled as `Rat` (the spec declares
  fixed-point two-decimal currency semantics for balances and amounts).
* SQLAlchemy sessions become explicit state passing on a `DB` record;
  `raise` becomes `Except`/`Option` results.  A raised error means the
  surrounding transaction is not committed, so the caller keeps the old `DB`.
* The `Transaction.reference` column is declared `unique=True` in
  app/models/transaction.py; the commit that flushes a transaction insert
  therefore fails on a duplicate reference.  This is modelled by an explicit
  uniqueness check at the insert point of `credit_wallet`/`debit_wallet`.
* `generate_reference` is timestamp/random based; it is modelled as an
  explicit `genRef` argument supplied by the environment.
* Python strings handled by the parser are modelled as `List Char`; regex
  patterns are hand-compiled to deterministic matchers (greediness is exact
  for these patterns because the character classes of adjacent regex pieces
  are disjoint; optional groups keep the backtracking structure via `<|>`
  on the whole continuation).
-/

namespace ForBill

/-! ### Data model (app/models/transaction.py, app/models/user.py) -/

inductive TransactionType where
  | airtime | data | electricity | cable_tv | exam_pin | wallet_funding
  | wallet_transfer | referral_bonus | admin_credit | admin_debit
  deriving Repr, DecidableEq

inductive TransactionStatus where
  | pending | processing | completed | failed | reversed
  deriving Repr, DecidableEq

/-- `User` row: the fields read or written by the wallet service. -/
structure User where
  id : Nat
  phone_number : String
  wallet_balance : Rat
  is_active : Bool
  deriving Repr, DecidableEq

/-- `Transaction` row: the fields read or written by the wallet service. -/
structure Transaction where
  id : Nat
  user_id : Nat
  type : TransactionType
  amount : Rat
  status : TransactionStatus
  reference : String
  description : String
  provider_response : Option String
  provider_reference : Option String
  deriving Repr, DecidableEq

/-- `WebhookLog` row (audit only: headers/payload text is never read back
by the business logic, so only identity and the processed flag are kept). -/
structure WebhookLogEntry where
  id : Nat
  processed : Bool
  deriving Repr, DecidableEq

/-- The persistent store: table contents plus autoincrement counters. -/
structure DB where
  users : List User
  transactions : List Transaction
  next_txn_id : Nat
  webhook_logs : List WebhookLogEntry
  next_log_id : Nat
  deriving Repr, DecidableEq

/-- The `ValueError`s raised by app/crud/user.py and app/services/wallet.py,
carrying the data interpolated into their messages, plus the
`IntegrityError` produced when a commit violates the unique constraint on
`Transaction.reference`. -/
inductive WalletError where
  | amountNotPositive
  | userNotFound (user_id : Nat)
  | insufficientBalance (available required : Rat)
  | invalidOperation (operation : String)
  | transactionNotFound (transaction_id : Nat)
  | uniqueReference (reference : String)
  deriving Repr, DecidableEq

/-- Shortfall carried by an insufficient-balance error
(required minus available). -/
def WalletError.shortfallOf : WalletError → Option Rat
  | .insufficientBalance available required => some (required - available)
  | _ => none

/-! ### CRUD (app/crud/user.py) -/

/-- `get_user_by_id`: first user row with the given primary key. -/
def get_user_by_id (db : DB) (user_id : Nat) : Option User :=
  db.users.find? (fun u => u.id == user_id)

/-- Mutating the ORM object returned by a primary-key query: replace the
first matching row. -/
def updateFirstUser (users : List User) (user_id : Nat) (f : User → User) :
    List User :=
  match users with
  | [] => []
  | u :: rest =>
    if u.id == user_id then f u :: rest else u :: updateFirstUser rest user_id f

/-- Same for transaction rows. -/
def updateFirstTxn (txns : List Transaction) (txn_id : Nat)
    (f : Transaction → Transaction) : List Transaction :=
  match txns with
  | [] => []
  | t :: rest =>
    if t.id == txn_id then f t :: rest else t :: updateFirstTxn rest txn_id f

/-- `update_user_balance(db, user_id, amount, operation)`:
`add` adds unconditionally; `subtract` raises on insufficient balance. -/
def update_user_balance (db : DB) (user_id : Nat) (amount : Rat)
    (operation : String) : Except WalletError DB :=
  match get_user_by_id db user_id with
  | none => .error (.userNotFound user_id)
  | some user =>
    if operation = "add" then
      let users2 := updateFirstUser db.users user_id
        (fun u => { u with wallet_balance := u.wallet_balance + amount })
      .ok { db with users := users2 }
    else if operation = "subtract" then
      if user.wallet_balance < amount then
        .error (.insufficientBalance user.wallet_balance amount)
      else
        let users2 := updateFirstUser db.users user_id
          (fun u => { u with wallet_balance := u.wallet_balance - amount })
        .ok { db with users := users2 }
    else
      .error (.invalidOperation operation)

/-! ### Wallet service (app/services/wallet.py) -/

/-- `WalletService.get_transaction_by_reference`. -/
def get_transaction_by_reference (db : DB) (reference : String) :
    Option Transaction :=
  db.transactions.find? (fun t => t.reference == reference)

/-- Transaction lookup by primary key, as used by
`update_transaction_status` and `refund_transaction`. -/
def find_transaction (db : DB) (transaction_id : Nat) : Option Transaction :=
  db.transactions.find? (fun t => t.id == transaction_id)

/-- `if not reference: reference = generate_reference(...)` —
`None` and the empty string are falsy. -/
def chooseRef (reference : Option String) (genRef : String) : String :=
  match reference with
  | none => genRef
  | some r => if r = "" then genRef else r

/-- `WalletService.credit_wallet`: validates the amount and the user,
inserts a COMPLETED `WALLET_FUNDING` transaction and adds the amount to the
balance.  The commit inside `update_user_balance` flushes the insert, so a
duplicate reference aborts with an integrity error and nothing is
persisted. -/
def credit_wallet (db : DB) (user_id : Nat) (amount : Rat)
    (description : String) (reference : Option String) (genRef : String)
    (metadata : Option String) : Except WalletError (DB × Transaction) :=
  if amount ≤ 0 then .error .amountNotPositive
  else
    match get_user_by_id db user_id with
    | none => .error (.userNotFound user_id)
    | some _user =>
      let ref := chooseRef reference genRef
      let txn : Transaction :=
        { id := db.next_txn_id, user_id := user_id, type := .wallet_funding,
          amount := amount, status := .completed, reference := ref,
          description := description, provider_response := metadata,
          provider_reference := none }
      if db.transactions.any (fun t => t.reference == ref) then
        .error (.uniqueReference ref)
      else
        match update_user_balance
            { db with transactions := db.transactions ++ [txn],
                      next_txn_id := db.next_txn_id + 1 }
            user_id amount ("add") with
        | .error e => .error e
        | .ok db2 => .ok (db2, txn)

/-- `WalletService.debit_wallet`: validates amount, user and balance,
inserts a PENDING transaction and subtracts the amount from the balance
(debit-first). -/
def debit_wallet (db : DB) (user_id : Nat) (amount : Rat)
    (description : String) (transaction_type : TransactionType)
    (reference : Option String) (genRef : String) (metadata : Option String) :
    Except WalletError (DB × Transaction) :=
  if amount ≤ 0 then .error .amountNotPositive
  else
    match get_user_by_id db user_id with
    | none => .error (.userNotFound user_id)
    | some user =>
      if user.wallet_balance < amount then
        .error (.insufficientBalance user.wallet_balance amount)
      else
        let ref := chooseRef reference genRef
        let txn : Transaction :=
          { id := db.next_txn_id, user_id := user_id, type := transaction_type,
            amount := amount, status := .pending, reference := ref,
            description := description, provider_response := metadata,
            provider_reference := none }
        if db.transactions.any (fun t => t.reference == ref) then
          .error (.uniqueReference ref)
        else
          match update_user_balance
              { db with transactions := db.transactions ++ [txn],
                        next_txn_id := db.next_txn_id + 1 }
              user_id amount ("subtract") with
          | .error e => .error e
          | .ok db2 => .ok (db2, txn)

/-- `if provider_response:` / `if provider_reference:` — the field is only
overwritten by a truthy (non-`None`, non-empty) value. -/
def overwriteIfTruthy (old new : Option String) : Option String :=
  match new with
  | none => old
  | some s => if s = "" then old else some s

/-- `WalletService.update_transaction_status`: sets the new status
unconditionally (no terminal-state guard) and optionally the provider
fields. -/
def update_transaction_status (db : DB) (transaction_id : Nat)
    (status : TransactionStatus) (provider_response provider_reference : Option String) :
    Except WalletError (DB × Transaction) :=
  match find_transaction db transaction_id with
  | none => .error (.transactionNotFound transaction_id)
  | some txn =>
    let txn2 : Transaction :=
      { txn with
        status := status,
        provider_response := overwriteIfTruthy txn.provider_response provider_response,
        provider_reference := overwriteIfTruthy txn.provider_reference provider_reference }
    .ok ({ db with transactions :=
             updateFirstTxn db.transactions transaction_id (fun _ => txn2) }, txn2)

/-- `WalletService.refund_transaction`: `None` when the transaction is
missing or already REVERSED; otherwise marks it REVERSED, stamps the reason
into `provider_response` and credits the amount back.  Any exception is
caught, the session is rolled back and `None` is returned. -/
def refund_transaction (db : DB) (transaction_id : Nat) (reason : String) :
    Option (DB × Transaction) :=
  match find_transaction db transaction_id with
  | none => none
  | some txn =>
    if txn.status = .reversed then none
    else
      let txn2 : Transaction :=
        { txn with status := .reversed,
                   provider_response := some ("REFUNDED: " ++ reason) }
      let db1 : DB :=
        { db with transactions :=
            updateFirstTxn db.transactions transaction_id (fun _ => txn2) }
      match update_user_balance db1 txn.user_id txn.amount ("add") with
      | .error _ => none
      | .ok db2 => some (db2, txn2)

/-- Observer: the stored wallet balance of a user. -/
def balance_of (db : DB) (user_id : Nat) : Option Rat :=
  (get_user_by_id db user_id).map (fun u => u.wallet_balance)

/-! ### Payrant funding webhook (app/api/webhooks/payrant.py) -/

/-- The JSON body fields read by the Payrant webhook handlers
(`none` = key absent). `amount` is kept numeric: `float(...)` on the
payloads of interest. -/
structure Payload where
  event : Option String
  type : Option String
  amount : Option Rat
  reference : Option String
  transaction_reference : Option String
  account_reference : Option String
  narration : Option String
  reason : Option String
  message : Option String
  deriving Repr, DecidableEq

/-- `body.get("event", body.get("type", "unknown"))`. -/
def event_type_of (p : Payload) : String :=
  match p.event with
  | some e => e
  | none =>
    match p.type with
    | some t => t
    | none => "unknown"

/-- `payload.get("reference", payload.get("transaction_reference"))`. -/
def payment_reference (p : Payload) : Option String :=
  match p.reference with
  | some r => some r
  | none => p.transaction_reference

/-- `payload.get("narration", "Wallet Funding")`. -/
def narration_of (p : Payload) : String :=
  match p.narration with
  | some n => n
  | none => "Wallet Funding"

/-- The duplicate lookup `get_transaction_by_reference(db, reference)` with
a possibly-absent reference: `Transaction.reference` is non-nullable, so a
`None` reference matches no row. -/
def existing_by_reference (db : DB) (reference : Option String) :
    Option Transaction :=
  match reference with
  | none => none
  | some r => get_transaction_by_reference db r

/-- `handle_successful_payment(db, payload)`: extracts amount/reference,
routes via the `FORBILL-{user_id}-{last4}` account reference, checks for a
duplicate transaction reference before crediting, then credits the wallet.
All exceptions are caught and logged, leaving the store unchanged
(`int(parts[1])` is modelled on canonical decimal strings via `toNat?`; a
non-parsing part takes the exception path).  `genRef` models
`generate_reference("CREDIT")` for the no-reference case. -/
def handle_successful_payment (db : DB) (payload : Payload) (genRef : String) :
    DB :=
  let amount : Rat := (payload.amount).getD 0
  let reference := payment_reference payload
  if amount ≤ 0 then db
  else
    match payload.account_reference with
    | none => db
    | some ar =>
      if ar.startsWith ("FORBILL-") then
        let parts := ar.splitOn ("-")
        if parts.length ≥ 2 then
          match ((parts.get? 1).getD ("")).toNat? with
          | none => db
          | some user_id =>
            match get_user_by_id db user_id with
            | none => db
            | some _user =>
              match existing_by_reference db reference with
              | some _ => db
              | none =>
                match credit_wallet db user_id amount
                    ("Wallet Funding - " ++ narration_of payload)
                    reference genRef (some ("payload")) with
                | .error _ => db
                | .ok (db2, _) => db2
        else db
      else db

/-- `handle_failed_payment(db, payload)`: marks a matching transaction
FAILED; exceptions are caught. -/
def handle_failed_payment (db : DB) (payload : Payload) : DB :=
  let reference := payment_reference payload
  let reasonStr :=
    match payload.reason with
    | some r => r
    | none =>
      match payload.message with
      | some m => m
      | none => "Unknown error"
  match existing_by_reference db reference with
  | none => db
  | some txn =>
    match update_transaction_status db txn.id .failed (some reasonStr) none with
    | .error _ => db
    | .ok (db2, _) => db2

/-- The transport-level outcome of the webhook endpoint: the JSON success
acknowledgment, or the `HTTPException` raised from the outer handler. -/
inductive WebhookResponse where
  | ack (status message : String)
  | httpError (status_code : Nat) (detail : String)
  deriving Repr, DecidableEq

def successEvents : List String := ["payment.success", "transaction.success", "credit"]

def failedEvents : List String := ["payment.failed", "transaction.failed"]

/-- `receive_payrant_webhook`: the request body is `Except String Payload`
(`.error` models `await request.json()` raising on a malformed body).  The
endpoint logs the webhook, dispatches on the event type, marks the log
processed and returns the success body; an exception escaping to the outer
`except` is re-raised as `HTTPException(status_code=500)`. -/
def receive_payrant_webhook (db : DB) (body : Except String Payload)
    (genRef : String) : WebhookResponse × DB :=
  match body with
  | .error e => (.httpError 500 e, db)
  | .ok payload =>
    let logId := db.next_log_id
    let db1 : DB :=
      { db with webhook_logs := db.webhook_logs ++ [{ id := logId, processed := false }],
                next_log_id := logId + 1 }
    let et := event_type_of payload
    let db2 :=
      if successEvents.contains et then handle_successful_payment db1 payload genRef
      else if failedEvents.contains et then handle_failed_payment db1 payload
      else db1
    let logs3 := db2.webhook_logs.map
      (fun l => if l.id == logId then { l with processed := true } else l)
    let db3 : DB := { db2 with webhook_logs := logs3 }
    (.ack ("received") ("Webhook processed successfully"), db3)

/-! ### Airtime network auto-detection
(app/api/webhooks/whatsapp.py, handle_airtime_purchase) -/

/-- The static prefix table, in source order. -/
def networkMap : List (String × String) :=
  [("0803", "MTN"), ("0806", "MTN"), ("0810", "MTN"), ("0813", "MTN"),
   ("0814", "MTN"), ("0816", "MTN"), ("0903", "MTN"), ("0906", "MTN"),
   ("0913", "MTN"), ("0916", "MTN"),
   ("0805", "GLO"), ("0807", "GLO"), ("0811", "GLO"), ("0815", "GLO"),
   ("0905", "GLO"),
   ("0802", "AIRTEL"), ("0808", "AIRTEL"), ("0812", "AIRTEL"),
   ("0902", "AIRTEL"), ("0907", "AIRTEL"),
   ("0809", "9MOBILE"), ("0817", "9MOBILE"), ("0818", "9MOBILE"),
   ("0909", "9MOBILE")]

/-- Association-list lookup modelling `dict.get` (keys are distinct). -/
def dictGet (key : String) (m : List (String × String)) : Option String :=
  match m with
  | [] => none
  | (k, v) :: rest => if k = key then some v else dictGet key rest

/-- `phone_prefix = phone[3:6] if phone.startswith("234") else phone[:4]`
followed by `network_map.get(phone_prefix, "MTN")`.  (`startswith` is
checked on the character list.) -/
def detect_network (phone : String) : String :=
  let cs := phone.toList
  let pfxChars :=
    match cs with
    | '2' :: '3' :: '4' :: rest => rest.take 3
    | _ => cs.take 4
  let pfx := String.mk pfxChars
  match dictGet pfx networkMap with
  | some n => n
  | none => "MTN"

/-! ### Command parser (app/services/commands.py)

Messages are `List Char`.  Each regex literal of `CommandParser` is
hand-compiled to a deterministic matcher; `reSearch` scans start positions
left to right like `re.search`. -/

/-- `\d` (ASCII digits, as in the phone/amount patterns). -/
def isDigitCh (c : Char) : Bool := 48 ≤ c.toNat && c.toNat ≤ 57

/-- `\s` / `str.strip` whitespace (ASCII). -/
def pyIsSpace (c : Char) : Bool :=
  c == ' ' || c == '\t' || c == '\n' || c == '\r' || c == '\x0b' || c == '\x0c'

/-- `str.lower` on ASCII. -/
def pyLowerChar (c : Char) : Char :=
  if 65 ≤ c.toNat && c.toNat ≤ 90 then Char.ofNat (c.toNat + 32) else c

def pyLower (s : List Char) : List Char := s.map pyLowerChar

/-- `str.strip()`. -/
def pyStrip (s : List Char) : List Char :=
  ((s.dropWhile pyIsSpace).reverse.dropWhile pyIsSpace).reverse

/-- Match a literal, returning the rest of the input. -/
def lit : List Char → List Char → Option (List Char)
  | [], s => some s
  | _ :: _, [] => none
  | p :: ps, c :: cs => if c == p then lit ps cs else none

/-- Anchored literal: the whole input is the literal (for `^...$`
alternatives). -/
def exactCh (pat s : List Char) : Bool :=
  match lit pat s with
  | some r => r.isEmpty
  | none => false

def startsWithCh (pat s : List Char) : Bool := (lit pat s).isSome

/-- Greedy span of a character class. -/
def spanP (p : Char → Bool) : List Char → List Char × List Char
  | [] => ([], [])
  | c :: cs =>
    if p c then (c :: (spanP p cs).1, (spanP p cs).2)
    else ([], c :: cs)

/-- `\s+`. -/
def space1 (s : List Char) : Option (List Char) :=
  match spanP pyIsSpace s with
  | ([], _) => none
  | (_, r) => some r

/-- `\s*`. -/
def space0 (s : List Char) : List Char := (spanP pyIsSpace s).2

/-- `(\d+)`: greedy, capturing the digit run. -/
def digits1 (s : List Char) : Option (List Char × List Char) :=
  match spanP isDigitCh s with
  | ([], _) => none
  | (d, r) => some (d, r)

/-- `\d{n}`. -/
def digitsN : Nat → List Char → Option (List Char × List Char)
  | 0, s => some ([], s)
  | _ + 1, [] => none
  | n + 1, c :: cs =>
    if isDigitCh c then (digitsN n cs).map (fun dr => (c :: dr.1, dr.2)) else none

/-- `((?:0|234)\d{10})`, capturing the whole group. -/
def phoneGroup (s : List Char) : Option (List Char × List Char) :=
  match lit ['0'] s with
  | some r => (digitsN 10 r).map (fun dr => ('0' :: dr.1, dr.2))
  | none =>
    match lit ['2', '3', '4'] s with
    | some r => (digitsN 10 r).map (fun dr => ('2' :: '3' :: '4' :: dr.1, dr.2))
    | none => none

/-- `(\d+(?:\.\d+)?)`, capturing the decimal literal. -/
def numDec (s : List Char) : Option (List Char × List Char) :=
  match digits1 s with
  | none => none
  | some (d, r) =>
    match r with
    | '.' :: r2 =>
      match digits1 r2 with
      | some (f, r3) => some (d ++ '.' :: f, r3)
      | none => some (d, r)
    | _ => some (d, r)

/-- `re.search`: try the matcher at every start position, leftmost first. -/
def reSearch {α : Type} (m : List Char → Option α) : List Char → Option α
  | [] => m []
  | c :: cs =>
    match m (c :: cs) with
    | some r => some r
    | none => reSearch m cs

/-- `int` of a decimal digit string (`int(groups[0])` on a `\d+` capture). -/
def charVal (c : Char) : Nat := c.toNat - 48

def digitsVal (l : List Char) : Nat := l.foldl (fun acc c => 10 * acc + charVal c) 0

/-- Decimal rendering of a natural number (`str(a)` / `f"{a}"`). -/
def digitCh (d : Nat) : Char := Char.ofNat (48 + d)

def renderNat (n : Nat) : List Char :=
  if n = 0 then ['0'] else ((Nat.digits 10 n).map digitCh).reverse

/-- `CommandParser._normalize_phone`. -/
def normalize_phone (phone : List Char) : Option (List Char) :=
  if phone.isEmpty then none
  else
    let p := phone.filter isDigitCh
    if startsWithCh ['2', '3', '4'] p && p.length == 13 then some p
    else if startsWithCh ['0'] p && p.length == 11 then
      some (['2', '3', '4'] ++ p.drop 1)
    else if p.length == 10 then some (['2', '3', '4'] ++ p)
    else none

/-- The normalization contract as the specification words it (strip
non-digits; 13 digits starting 234 unchanged; 11 digits starting 0 →
replace the 0 by 234; exactly 10 digits → prepend 234; anything else
fails).  Spec-side definition, to be compared with `normalize_phone`. -/
def normalize_phone_spec (phone : List Char) : Option (List Char) :=
  let d := phone.filter isDigitCh
  if d.length == 13 && startsWithCh ['2', '3', '4'] d then some d
  else if d.length == 11 && startsWithCh ['0'] d then
    some (['2', '3', '4'] ++ d.drop 1)
  else if d.length == 10 then some (['2', '3', '4'] ++ d)
  else none

/-- `CommandType` (services/commands.py). -/
inductive CommandType where
  | greeting | help | menu | balance | airtime | data | electricity | cable_tv
  | history | referral | unknown
  deriving Repr, DecidableEq

/-- The parser result dictionary: absent keys are `none`. -/
structure ParseResult where
  command_type : CommandType
  original_message : List Char
  confidence : String
  amount : Option Nat
  error : Option String
  phone_number : Option (List Char)
  network : Option (List Char)
  data_size_mb : Option Int
  data_size_display : Option (List Char)
  provider : Option (List Char)
  deriving Repr, DecidableEq

def emptyResult (ct : CommandType) (msg : List Char) (conf : String) :
    ParseResult :=
  { command_type := ct, original_message := msg, confidence := conf,
    amount := none, error := none, phone_number := none, network := none,
    data_size_mb := none, data_size_display := none, provider := none }

/-- `good\s*(morning|afternoon|evening)` anchored. -/
def matchGood (s : List Char) : Bool :=
  match lit ['g', 'o', 'o', 'd'] s with
  | none => false
  | some r =>
    let r2 := space0 r
    exactCh ['m', 'o', 'r', 'n', 'i', 'n', 'g'] r2 ||
      exactCh ['a', 'f', 't', 'e', 'r', 'n', 'o', 'o', 'n'] r2 ||
      exactCh ['e', 'v', 'e', 'n', 'i', 'n', 'g'] r2

/-- `^(hi|hello|hey|start|good\s*(morning|afternoon|evening))$`. -/
def matchGreeting (s : List Char) : Bool :=
  exactCh ['h', 'i'] s || exactCh ['h', 'e', 'l', 'l', 'o'] s ||
    exactCh ['h', 'e', 'y'] s || exactCh ['s', 't', 'a', 'r', 't'] s ||
    matchGood s

/-- `^(help|menu|options|commands|what can you do)$`. -/
def matchHelp (s : List Char) : Bool :=
  exactCh ['h', 'e', 'l', 'p'] s || exactCh ['m', 'e', 'n', 'u'] s ||
    exactCh ['o', 'p', 't', 'i', 'o', 'n', 's'] s ||
    exactCh ['c', 'o', 'm', 'm', 'a', 'n', 'd', 's'] s ||
    exactCh ['w', 'h', 'a', 't', ' ', 'c', 'a', 'n', ' ', 'y', 'o', 'u', ' ', 'd', 'o'] s

/-- `^(balance|check balance|my balance|wallet|check wallet)$` and
`^(bal)$`. -/
def matchBalance (s : List Char) : Bool :=
  exactCh ['b', 'a', 'l', 'a', 'n', 'c', 'e'] s ||
    exactCh ['c', 'h', 'e', 'c', 'k', ' ', 'b', 'a', 'l', 'a', 'n', 'c', 'e'] s ||
    exactCh ['m', 'y', ' ', 'b', 'a', 'l', 'a', 'n', 'c', 'e'] s ||
    exactCh ['w', 'a', 'l', 'l', 'e', 't'] s ||
    exactCh ['c', 'h', 'e', 'c', 'k', ' ', 'w', 'a', 'l', 'l', 'e', 't'] s ||
    exactCh ['b', 'a', 'l'] s

/-- `^(history|transactions|my transactions|transaction history)$` and
`^(txn|txns)$`. -/
def matchHistory (s : List Char) : Bool :=
  exactCh ['h', 'i', 's', 't', 'o', 'r', 'y'] s ||
    exactCh ['t', 'r', 'a', 'n', 's', 'a', 'c', 't', 'i', 'o', 'n', 's'] s ||
    exactCh ['m', 'y', ' ', 't', 'r', 'a', 'n', 's', 'a', 'c', 't', 'i', 'o', 'n', 's'] s ||
    exactCh ['t', 'r', 'a', 'n', 's', 'a', 'c', 't', 'i', 'o', 'n', ' ', 'h', 'i', 's', 't', 'o', 'r', 'y'] s ||
    exactCh ['t', 'x', 'n'] s || exactCh ['t', 'x', 'n', 's'] s

/-- `^(ref\s+code)$`. -/
def matchRefCode (s : List Char) : Bool :=
  match lit ['r', 'e', 'f'] s with
  | none => false
  | some r =>
    match space1 r with
    | none => false
    | some r2 => exactCh ['c', 'o', 'd', 'e'] r2

/-- `^(referral|refer|my referral|referral code|invite)$` and
`^(ref\s+code)$`. -/
def matchReferral (s : List Char) : Bool :=
  exactCh ['r', 'e', 'f', 'e', 'r', 'r', 'a', 'l'] s ||
    exactCh ['r', 'e', 'f', 'e', 'r'] s ||
    exactCh ['m', 'y', ' ', 'r', 'e', 'f', 'e', 'r', 'r', 'a', 'l'] s ||
    exactCh ['r', 'e', 'f', 'e', 'r', 'r', 'a', 'l', ' ', 'c', 'o', 'd', 'e'] s ||
    exactCh ['i', 'n', 'v', 'i', 't', 'e'] s ||
    matchRefCode s

/-! Airtime patterns, in source order.  A matcher yields the `(\d+)` amount
capture and the optional phone capture. -/

/-- Tail `airtime\s+for\s+((?:0|234)\d{10})` of pattern 1. -/
def p1tail (d : List Char) (s : List Char) :
    Option (List Char × Option (List Char)) :=
  match lit ['a', 'i', 'r', 't', 'i', 'm', 'e'] s with
  | none => none
  | some s1 =>
    match space1 s1 with
    | none => none
    | some s2 =>
      match lit ['f', 'o', 'r'] s2 with
      | none => none
      | some s3 =>
        match space1 s3 with
        | none => none
        | some s4 =>
          match phoneGroup s4 with
          | none => none
          | some (ph, _) => some (d, some ph)

/-- `(\d+)\s*(?:naira\s+)?airtime\s+for\s+((?:0|234)\d{10})`. -/
def p1core (s : List Char) : Option (List Char × Option (List Char)) :=
  match digits1 s with
  | none => none
  | some (d, s1) =>
    let s2 := space0 s1
    match (match lit ['n', 'a', 'i', 'r', 'a'] s2 with
           | none => none
           | some s3 =>
             match space1 s3 with
             | none => none
             | some s4 => p1tail d s4) with
    | some r => some r
    | none => p1tail d s2

/-- Pattern 1: `(?:buy\s+)?(\d+)\s*(?:naira\s+)?airtime\s+for\s+((?:0|234)\d{10})`. -/
def p1At (s : List Char) : Option (List Char × Option (List Char)) :=
  match (match lit ['b', 'u', 'y'] s with
         | none => none
         | some s1 =>
           match space1 s1 with
           | none => none
           | some s2 => p1core s2) with
  | some r => some r
  | none => p1core s

/-- Pattern 2: `airtime\s+(\d+)\s+(?:for|to)\s+((?:0|234)\d{10})`. -/
def p2At (s : List Char) : Option (List Char × Option (List Char)) :=
  match lit ['a', 'i', 'r', 't', 'i', 'm', 'e'] s with
  | none => none
  | some s1 =>
    match space1 s1 with
    | none => none
    | some s2 =>
      match digits1 s2 with
      | none => none
      | some (d, s3) =>
        match space1 s3 with
        | none => none
        | some s4 =>
          match (match lit ['f', 'o', 'r'] s4 with
                 | some r => some r
                 | none => lit ['t', 'o'] s4) with
          | none => none
          | some s5 =>
            match space1 s5 with
            | none => none
            | some s6 =>
              match phoneGroup s6 with
              | none => none
              | some (ph, _) => some (d, some ph)

/-- `(\d+)\s*(?:naira\s+)?airtime` (core of pattern 3). -/
def p3core (s : List Char) : Option (List Char × Option (List Char)) :=
  match digits1 s with
  | none => none
  | some (d, s1) =>
    let s2 := space0 s1
    match (match lit ['n', 'a', 'i', 'r', 'a'] s2 with
           | none => none
           | some s3 =>
             match space1 s3 with
             | none => none
             | some s4 =>
               match lit ['a', 'i', 'r', 't', 'i', 'm', 'e'] s4 with
               | none => none
               | some _ => some (d, (none : Option (List Char)))) with
    | some r => some r
    | none =>
      match lit ['a', 'i', 'r', 't', 'i', 'm', 'e'] s2 with
      | none => none
      | some _ => some (d, none)

/-- Pattern 3: `(?:buy\s+)?(\d+)\s*(?:naira\s+)?airtime`. -/
def p3At (s : List Char) : Option (List Char × Option (List Char)) :=
  match (match lit ['b', 'u', 'y'] s with
         | none => none
         | some s1 =>
           match space1 s1 with
           | none => none
           | some s2 => p3core s2) with
  | some r => some r
  | none => p3core s

/-- Pattern 4: `airtime\s+(?:of\s+)?(\d+)`. -/
def p4At (s : List Char) : Option (List Char × Option (List Char)) :=
  match lit ['a', 'i', 'r', 't', 'i', 'm', 'e'] s with
  | none => none
  | some s1 =>
    match space1 s1 with
    | none => none
    | some s2 =>
      match (match lit ['o', 'f'] s2 with
             | none => none
             | some s3 =>
               match space1 s3 with
               | none => none
               | some s4 =>
                 match digits1 s4 with
                 | none => none
                 | some (d, _) => some (d, (none : Option (List Char)))) with
      | some r => some r
      | none =>
        match digits1 s2 with
        | none => none
        | some (d, _) => some (d, none)

/-- `airtime\s+(?:for\s+)?(\d+)` (core of pattern 5). -/
def p5core (s : List Char) : Option (List Char × Option (List Char)) :=
  match lit ['a', 'i', 'r', 't', 'i', 'm', 'e'] s with
  | none => none
  | some s1 =>
    match space1 s1 with
    | none => none
    | some s2 =>
      match (match lit ['f', 'o', 'r'] s2 with
             | none => none
             | some s3 =>
               match space1 s3 with
               | none => none
               | some s4 =>
                 match digits1 s4 with
                 | none => none
                 | some (d, _) => some (d, (none : Option (List Char)))) with
      | some r => some r
      | none =>
        match digits1 s2 with
        | none => none
        | some (d, _) => some (d, none)

/-- Pattern 5: `(?:buy\s+)?airtime\s+(?:for\s+)?(\d+)`. -/
def p5At (s : List Char) : Option (List Char × Option (List Char)) :=
  match (match lit ['b', 'u', 'y'] s with
         | none => none
         | some s1 =>
           match space1 s1 with
           | none => none
           | some s2 => p5core s2) with
  | some r => some r
  | none => p5core s

/-- Pattern 6: `(?:recharge|top\s*up)\s+(\d+)`. -/
def p6At (s : List Char) : Option (List Char × Option (List Char)) :=
  match (match lit ['r', 'e', 'c', 'h', 'a', 'r', 'g', 'e'] s with
         | some r => some r
         | none =>
           match lit ['t', 'o', 'p'] s with
           | none => none
           | some r => lit ['u', 'p'] (space0 r)) with
  | none => none
  | some s1 =>
    match space1 s1 with
    | none => none
    | some s2 =>
      match digits1 s2 with
      | none => none
      | some (d, _) => some (d, none)

/-- The `for pattern in self.airtime_patterns: re.search(...)` loop. -/
def airtimeSearch (s : List Char) : Option (List Char × Option (List Char)) :=
  match reSearch p1At s with
  | some r => some r
  | none =>
    match reSearch p2At s with
    | some r => some r
    | none =>
      match reSearch p3At s with
      | some r => some r
      | none =>
        match reSearch p4At s with
        | some r => some r
        | none =>
          match reSearch p5At s with
          | some r => some r
          | none => reSearch p6At s

/-- `CommandParser._parse_airtime`: amount bounds give the low-confidence
error branches; the optional phone capture is normalized.  (`int` on a
`\d+` capture cannot raise, so the `except ValueError: continue` path is
dead.) -/
def parseAirtime (m : List Char) : Option ParseResult :=
  match airtimeSearch m with
  | none => none
  | some (d, ph) =>
    let amount := digitsVal d
    let base := emptyResult .airtime m ("high")
    let r1 :=
      if amount < 50 then
        { base with confidence := "low",
                    error := some ("Amount too low. Minimum is ₦50") }
      else if 50000 < amount then
        { base with confidence := "low",
                    error := some ("Amount too high. Maximum is ₦50,000") }
      else { base with amount := some amount }
    match ph with
    | none => some r1
    | some p =>
      match normalize_phone p with
      | none => some r1
      | some np => some { r1 with phone_number := some np }

/-! Data patterns, in source order. -/

/-- `^(buy\s+data|get\s+data|data\s+bundles?|data)$`. -/
def dataBare (s : List Char) : Bool :=
  (match lit ['b', 'u', 'y'] s with
   | none => false
   | some r =>
     match space1 r with
     | none => false
     | some r2 => exactCh ['d', 'a', 't', 'a'] r2) ||
  (match lit ['g', 'e', 't'] s with
   | none => false
   | some r =>
     match space1 r with
     | none => false
     | some r2 => exactCh ['d', 'a', 't', 'a'] r2) ||
  (match lit ['d', 'a', 't', 'a'] s with
   | none => false
   | some r =>
     match space1 r with
     | none => false
     | some r2 =>
       match lit ['b', 'u', 'n', 'd', 'l', 'e'] r2 with
       | none => false
       | some r3 => r3.isEmpty || r3 == ['s']) ||
  exactCh ['d', 'a', 't', 'a'] s

/-- `(gb|mb)` with capture. -/
def unitTok (s : List Char) : Option (List Char × List Char) :=
  match lit ['g', 'b'] s with
  | some r => some (['g', 'b'], r)
  | none =>
    match lit ['m', 'b'] s with
    | some r => some (['m', 'b'], r)
    | none => none

/-- `(mtn|glo|airtel|9mobile)` with capture. -/
def networkTok (s : List Char) : Option (List Char × List Char) :=
  match lit ['m', 't', 'n'] s with
  | some r => some (['m', 't', 'n'], r)
  | none =>
    match lit ['g', 'l', 'o'] s with
    | some r => some (['g', 'l', 'o'], r)
    | none =>
      match lit ['a', 'i', 'r', 't', 'e', 'l'] s with
      | some r => some (['a', 'i', 'r', 't', 'e', 'l'], r)
      | none =>
        match lit ['9', 'm', 'o', 'b', 'i', 'l', 'e'] s with
        | some r => some (['9', 'm', 'o', 'b', 'i', 'l', 'e'], r)
        | none => none

/-- `(\d+(?:\.\d+)?)(gb|mb)\s+(mtn|glo|airtel|9mobile)` (core of data
pattern 2). -/
def d2core (s : List Char) : Option (List (List Char)) :=
  match numDec s with
  | none => none
  | some (n, s1) =>
    match unitTok s1 with
    | none => none
    | some (u, s2) =>
      match space1 s2 with
      | none => none
      | some s3 =>
        match networkTok s3 with
        | none => none
        | some (net, _) => some [n, u, net]

/-- Data pattern 2: `(?:buy\s+)?(\d+(?:\.\d+)?)(gb|mb)\s+(mtn|glo|airtel|9mobile)`. -/
def d2At (s : List Char) : Option (List (List Char)) :=
  match (match lit ['b', 'u', 'y'] s with
         | none => none
         | some r =>
           match space1 r with
           | none => none
           | some r2 => d2core r2) with
  | some g => some g
  | none => d2core s

/-- Data pattern 3: `(mtn|glo|airtel|9mobile)\s+(\d+(?:\.\d+)?)(gb|mb)`. -/
def d3At (s : List Char) : Option (List (List Char)) :=
  match networkTok s with
  | none => none
  | some (net, s1) =>
    match space1 s1 with
    | none => none
    | some s2 =>
      match numDec s2 with
      | none => none
      | some (n, s3) =>
        match unitTok s3 with
        | none => none
        | some (u, _) => some [net, n, u]

/-- Data pattern 4:
`(\d+(?:\.\d+)?)(gb|mb)\s+(mtn|glo|airtel|9mobile)\s+(?:for|to)\s+((?:0|234)\d{10})`. -/
def d4At (s : List Char) : Option (List (List Char)) :=
  match numDec s with
  | none => none
  | some (n, s1) =>
    match unitTok s1 with
    | none => none
    | some (u, s2) =>
      match space1 s2 with
      | none => none
      | some s3 =>
        match networkTok s3 with
        | none => none
        | some (net, s4) =>
          match space1 s4 with
          | none => none
          | some s5 =>
            match (match lit ['f', 'o', 'r'] s5 with
                   | some r => some r
                   | none => lit ['t', 'o'] s5) with
            | none => none
            | some s6 =>
              match space1 s6 with
              | none => none
              | some s7 =>
                match phoneGroup s7 with
                | none => none
                | some (ph, _) => some [n, u, net, ph]

/-- `re.match(r'^\d+(?:\.\d+)?$', group)`. -/
def decimalShape (g : List Char) : Bool :=
  match numDec g with
  | some (_, r) => r.isEmpty
  | none => false

/-- `re.match(r'^(?:0|234)\d{10}$', group)`. -/
def phoneShape (g : List Char) : Bool :=
  match phoneGroup g with
  | some (_, r) => r.isEmpty
  | none => false

/-- Accumulator of `_parse_data`: the `size`/`unit`/`network`/`phone`
variables of its classification loop (`size` keeps the matched decimal
literal, `phone` the already-normalized number). -/
structure DataAcc where
  size : Option (List Char)
  unit : Option (List Char)
  network : Option (List Char)
  phone : Option (List Char)
  deriving Repr, DecidableEq

/-- One step of the `for i, group in enumerate(groups)` loop. -/
def dataClassify (acc : DataAcc) (g : List Char) : DataAcc :=
  if g.isEmpty then acc
  else if decimalShape g then { acc with size := some g }
  else if g == ['g', 'b'] || g == ['m', 'b'] then { acc with unit := some g }
  else if g == ['m', 't', 'n'] || g == ['g', 'l', 'o'] ||
      g == ['a', 'i', 'r', 't', 'e', 'l'] || g == ['9', 'm', 'o', 'b', 'i', 'l', 'e'] then
    { acc with network := some g }
  else if phoneShape g then { acc with phone := normalize_phone g }
  else acc

/-- Integer and fractional digit parts of a matched decimal literal. -/
def fracSplit (g : List Char) : List Char × List Char :=
  let ir := spanP isDigitCh g
  match ir.2 with
  | '.' :: f => (ir.1, f)
  | _ => (ir.1, [])

/-- `float(group)` for a matched decimal literal. -/
def ratOfDecimal (g : List Char) : Rat :=
  let p := fracSplit g
  (digitsVal p.1 : Rat) + (digitsVal p.2 : Rat) / ((10 : Rat) ^ p.2.length)

def stripLeadZeros (l : List Char) : List Char :=
  match l.dropWhile (fun c => c == '0') with
  | [] => ['0']
  | r => r

def stripTrailZeros (l : List Char) : List Char :=
  (l.reverse.dropWhile (fun c => c == '0')).reverse

/-- `f"{size}"` where `size = float(group)`: the shortest round-trip float
repr, which for the short decimal literals these patterns capture is the
literal with leading/trailing zeros canonicalized and a forced `.0` for
whole numbers. -/
def pyFloatStr (g : List Char) : List Char :=
  let p := fracSplit g
  let ip := stripLeadZeros p.1
  let fp := stripTrailZeros p.2
  if fp.isEmpty then ip ++ ['.', '0'] else ip ++ '.' :: fp

/-- The extraction shared by data patterns 2-4 (`if size and unit:` — note
`0.0` is falsy; GB sizes are converted with `int(size * 1024)`). -/
def dataExtract (m : List Char) (groups : List (List Char)) : ParseResult :=
  let acc := groups.foldl dataClassify ⟨none, none, none, none⟩
  let base := emptyResult .data m ("medium")
  let r1 :=
    match acc.size, acc.unit with
    | some sz, some u =>
      if ratOfDecimal sz ≠ 0 then
        if u == ['g', 'b'] then
          { base with data_size_mb := some (Int.floor (ratOfDecimal sz * 1024)),
                      data_size_display := some (pyFloatStr sz ++ ['G', 'B']),
                      confidence := "high" }
        else
          { base with data_size_mb := some (Int.floor (ratOfDecimal sz)),
                      data_size_display := some (pyFloatStr sz ++ ['M', 'B']),
                      confidence := "high" }
      else base
    | _, _ => base
  let r2 :=
    match acc.network with
    | some net => { r1 with network := some net }
    | none => r1
  match acc.phone with
  | some ph => { r2 with phone_number := some ph }
  | none => r2

/-- `CommandParser._parse_data`. -/
def parseData (m : List Char) : Option ParseResult :=
  if dataBare m then some (emptyResult .data m ("medium"))
  else
    match reSearch d2At m with
    | some g => some (dataExtract m g)
    | none =>
      match reSearch d3At m with
      | some g => some (dataExtract m g)
      | none =>
        match reSearch d4At m with
        | some g => some (dataExtract m g)
        | none => none

/-! Electricity patterns, in source order. -/

/-- `^(buy\s+electricity|electricity|light\s+bill|pay\s+light|nepa|ekedc|ikedc)$`. -/
def elecBare (s : List Char) : Bool :=
  (match lit ['b', 'u', 'y'] s with
   | none => false
   | some r =>
     match space1 r with
     | none => false
     | some r2 => exactCh ['e', 'l', 'e', 'c', 't', 'r', 'i', 'c', 'i', 't', 'y'] r2) ||
  exactCh ['e', 'l', 'e', 'c', 't', 'r', 'i', 'c', 'i', 't', 'y'] s ||
  (match lit ['l', 'i', 'g', 'h', 't'] s with
   | none => false
   | some r =>
     match space1 r with
     | none => false
     | some r2 => exactCh ['b', 'i', 'l', 'l'] r2) ||
  (match lit ['p', 'a', 'y'] s with
   | none => false
   | some r =>
     match space1 r with
     | none => false
     | some r2 => exactCh ['l', 'i', 'g', 'h', 't'] r2) ||
  exactCh ['n', 'e', 'p', 'a'] s || exactCh ['e', 'k', 'e', 'd', 'c'] s ||
  exactCh ['i', 'k', 'e', 'd', 'c'] s

/-- Electricity pattern 2: `(?:buy|pay)\s+(\d+)\s+(?:electricity|light)`. -/
def e2At (s : List Char) : Option (List Char) :=
  match (match lit ['b', 'u', 'y'] s with
         | some r => some r
         | none => lit ['p', 'a', 'y'] s) with
  | none => none
  | some s1 =>
    match space1 s1 with
    | none => none
    | some s2 =>
      match digits1 s2 with
      | none => none
      | some (d, s3) =>
        match space1 s3 with
        | none => none
        | some s4 =>
          match lit ['e', 'l', 'e', 'c', 't', 'r', 'i', 'c', 'i', 't', 'y'] s4 with
          | some _ => some d
          | none =>
            match lit ['l', 'i', 'g', 'h', 't'] s4 with
            | some _ => some d
            | none => none

/-- `(?:electricity|light)` tail of electricity pattern 3. -/
def e3fin (d : List Char) (s : List Char) : Option (List Char) :=
  match lit ['e', 'l', 'e', 'c', 't', 'r', 'i', 'c', 'i', 't', 'y'] s with
  | some _ => some d
  | none =>
    match lit ['l', 'i', 'g', 'h', 't'] s with
    | some _ => some d
    | none => none

/-- Electricity pattern 3: `(\d+)\s+(?:naira\s+)?(?:electricity|light)`. -/
def e3At (s : List Char) : Option (List Char) :=
  match digits1 s with
  | none => none
  | some (d, s1) =>
    match space1 s1 with
    | none => none
    | some s2 =>
      match (match lit ['n', 'a', 'i', 'r', 'a'] s2 with
             | none => none
             | some s3 =>
               match space1 s3 with
               | none => none
               | some s4 => e3fin d s4) with
      | some r => some r
      | none => e3fin d s2

/-- The amount extraction of `_parse_electricity` for a digit capture
(`groups[0].isdigit()` holds; amounts below 100 stay absent). -/
def elecExtract (m d : List Char) : ParseResult :=
  let base := emptyResult .electricity m ("medium")
  let amount := digitsVal d
  if amount ≥ 100 then { base with amount := some amount, confidence := "high" }
  else base

/-- `CommandParser._parse_electricity` (the bare-phrase group is never a
digit string, so it yields the medium result unchanged). -/
def parseElectricity (m : List Char) : Option ParseResult :=
  if elecBare m then some (emptyResult .electricity m ("medium"))
  else
    match reSearch e2At m with
    | some d => some (elecExtract m d)
    | none =>
      match reSearch e3At m with
      | some d => some (elecExtract m d)
      | none => none

/-! Cable patterns, in source order. -/

/-- `^(cable|tv|dstv|gotv|startimes)$`. -/
def cableBare (s : List Char) : Bool :=
  exactCh ['c', 'a', 'b', 'l', 'e'] s || exactCh ['t', 'v'] s ||
    exactCh ['d', 's', 't', 'v'] s || exactCh ['g', 'o', 't', 'v'] s ||
    exactCh ['s', 't', 'a', 'r', 't', 'i', 'm', 'e', 's'] s

/-- `(dstv|gotv|startimes)` with capture. -/
def provTok (s : List Char) : Option (List Char × List Char) :=
  match lit ['d', 's', 't', 'v'] s with
  | some r => some (['d', 's', 't', 'v'], r)
  | none =>
    match lit ['g', 'o', 't', 'v'] s with
    | some r => some (['g', 'o', 't', 'v'], r)
    | none =>
      match lit ['s', 't', 'a', 'r', 't', 'i', 'm', 'e', 's'] s with
      | some r => some (['s', 't', 'a', 'r', 't', 'i', 'm', 'e', 's'], r)
      | none => none

/-- Cable pattern 2: `(?:pay|subscribe|renew)\s+(dstv|gotv|startimes)`. -/
def c2At (s : List Char) : Option (List Char) :=
  match (match lit ['p', 'a', 'y'] s with
         | some r => some r
         | none =>
           match lit ['s', 'u', 'b', 's', 'c', 'r', 'i', 'b', 'e'] s with
           | some r => some r
           | none => lit ['r', 'e', 'n', 'e', 'w'] s) with
  | none => none
  | some s1 =>
    match space1 s1 with
    | none => none
    | some s2 =>
      match provTok s2 with
      | some (p, _) => some p
      | none => none

/-- The provider extraction of `_parse_cable` applied to `groups[0]`. -/
def cableExtract (m g : List Char) : ParseResult :=
  let base := emptyResult .cable_tv m ("medium")
  if g == ['d', 's', 't', 'v'] || g == ['g', 'o', 't', 'v'] ||
      g == ['s', 't', 'a', 'r', 't', 'i', 'm', 'e', 's'] then
    { base with provider := some g, confidence := "high" }
  else base

/-- `CommandParser._parse_cable` (for the anchored pattern the capture is
the whole message). -/
def parseCable (m : List Char) : Option ParseResult :=
  if cableBare m then some (cableExtract m m)
  else
    match reSearch c2At m with
    | some p => some (cableExtract m p)
    | none => none

/-- `CommandParser.parse`: normalize, then the fixed-phrase classes in
priority order, then airtime/data/electricity/cable, else UNKNOWN. -/
def parse (message : List Char) : ParseResult :=
  if message.isEmpty then emptyResult .unknown message ("low")
  else
    let m := pyLower (pyStrip message)
    if m.isEmpty then emptyResult .unknown m ("low")
    else if matchGreeting m then emptyResult .greeting m ("high")
    else if matchHelp m then emptyResult .help m ("high")
    else if matchBalance m then emptyResult .balance m ("high")
    else if matchHistory m then emptyResult .history m ("high")
    else if matchReferral m then emptyResult .referral m ("high")
    else
      match parseAirtime m with
      | some r => r
      | none =>
        match parseData m with
        | some r => r
        | none =>
          match parseElectricity m with
          | some r => r
          | none =>
            match parseCable m with
            | some r => r
            | none => emptyResult .unknown m ("low")

/-! ### Concrete stores and payloads used as witness inputs -/

def userW (bal : Rat) : User :=
  { id := 1, phone_number := "2348011112222", wallet_balance := bal,
    is_active := true }

def dbW (bal : Rat) : DB :=
  { users := [userW bal], transactions := [], next_txn_id := 1,
    webhook_logs := [], next_log_id := 1 }

def txnW (st : TransactionStatus) : Transaction :=
  { id := 1, user_id := 1, type := .airtime, amount := 50, status := st,
    reference := "R1", description := "airtime", provider_response := none,
    provider_reference := none }

def dbWithTxn (st : TransactionStatus) : DB :=
  { users := [userW 100], transactions := [txnW st], next_txn_id := 2,
    webhook_logs := [], next_log_id := 1 }

def dbEmpty : DB :=
  { users := [], transactions := [], next_txn_id := 1, webhook_logs := [],
    next_log_id := 1 }

/-- A replayed successful funding payload whose reference is already in
`dbWithTxn`. -/
def payloadDup : Payload :=
  { event := some ("credit"), type := none, amount := some 2000,
    reference := some ("R1"), transaction_reference := none,
    account_reference := some ("FORBILL-1-2222"), narration := none,
    reason := none, message := none }

/-- The message `f"buy {a} airtime"`. -/
def buyAirtimeMsg (a : Nat) : List Char :=
  ['b', 'u', 'y', ' '] ++ renderNat a ++ [' ', 'a', 'i', 'r', 't', 'i', 'm', 'e']

/-! Expected-result observers: the row and store produced by a successful
credit/debit (used to state the algebraic claims). -/

/-- The transaction row a successful `credit_wallet` inserts. -/
def creditTxn (db : DB) (user_id : Nat) (a : Rat) (desc : String)
    (r : String) (md : Option String) : Transaction :=
  { id := db.next_txn_id, user_id := user_id, type := .wallet_funding,
    amount := a, status := .completed, reference := r, description := desc,
    provider_response := md, provider_reference := none }

/-- The store a successful `credit_wallet` produces. -/
def creditDB (db : DB) (user_id : Nat) (a : Rat) (desc : String)
    (r : String) (md : Option String) : DB :=
  { users := updateFirstUser db.users user_id
      (fun v => { v with wallet_balance := v.wallet_balance + a }),
    transactions := db.transactions ++ [creditTxn db user_id a desc r md],
    next_txn_id := db.next_txn_id + 1,
    webhook_logs := db.webhook_logs, next_log_id := db.next_log_id }

/-- The transaction row a successful `debit_wallet` inserts. -/
def debitTxn (db : DB) (user_id : Nat) (a : Rat) (desc : String)
    (ttype : TransactionType) (r : String) (md : Option String) : Transaction :=
  { id := db.next_txn_id, user_id := user_id, type := ttype, amount := a,
    status := .pending, reference := r, description := desc,
    provider_response := md, provider_reference := none }

/-- The store a successful `debit_wallet` produces. -/
def debitDB (db : DB) (user_id : Nat) (a : Rat) (desc : String)
    (ttype : TransactionType) (r : String) (md : Option String) : DB :=
  { users := updateFirstUser db.users user_id
      (fun v => { v with wallet_balance := v.wallet_balance - a }),
    transactions := db.transactions ++ [debitTxn db user_id a desc ttype r md],
    next_txn_id := db.next_txn_id + 1,
    webhook_logs := db.webhook_logs, next_log_id := db.next_log_id }

/-- The error of a failed call, if any. -/
def errorOf {α : Type} : Except WalletError α → Option WalletError
  | .error e => some e
  | .ok _ => none

/-- The reversed row a successful `refund_transaction` produces. -/
def refundTxn (t : Transaction) (reason : String) : Transaction :=
  { t with status := .reversed,
           provider_response := some ("REFUNDED: " ++ reason) }

/-- The store a successful `refund_transaction` produces. -/
def refundDB (db : DB) (t : Transaction) (reason : String) : DB :=
  { db with
    transactions := updateFirstTxn db.transactions t.id (fun _ => refundTxn t reason),
    users := updateFirstUser db.users t.user_id
      (fun v => { v with wallet_balance := v.wallet_balance + t.amount }) }

/-! ### Helper lemmas: first-match updates and lookups -/

theorem find?_updateFirstUser (users : List User) (user_id : Nat)
    (f : User → User) (hf : ∀ u, (f u).id = u.id) :
    (updateFirstUser users user_id f).find? (fun u => u.id == user_id) =
      (users.find? (fun u => u.id == user_id)).map f := by
  induction users with
  | nil => rfl
  | cons u rest ih =>
    by_cases h : u.id == user_id
    · simp [updateFirstUser, h, List.find?, hf u]
    · simp [updateFirstUser, h, List.find?, ih]

theorem find?_append_of_none {α : Type} (p : α → Bool) (l1 l2 : List α)
    (h : l1.find? p = none) : (l1 ++ l2).find? p = l2.find? p := by
  simp [List.find?_append, h]

theorem find?_eq_none_of_lt_id (txns : List Transaction) (n : Nat)
    (h : ∀ t ∈ txns, t.id < n) :
    txns.find? (fun t => t.id == n) = none := by
  rw [List.find?_eq_none]
  intro t ht
  simpa using Nat.ne_of_lt (h t ht)

theorem any_reference_false (txns : List Transaction) (r : String)
    (h : ∀ t ∈ txns, t.reference ≠ r) :
    (txns.any fun t => t.reference == r) = false := by
  rw [List.any_eq_false]
  intro t ht
  simpa using h t ht

/-! ### Claim C3 -/

/-- C3: for every stored user (with the data-model invariant of a
non-negative balance) and every amount strictly greater than the balance,
`debit_wallet` returns the insufficient-balance error carrying the
available and required amounts — whose shortfall is amount − balance —
and, being an error, produces no new store: neither the balance nor the
transactions are mutated. -/
theorem c3_debit_insufficient_balance (db : DB) (user_id : Nat) (u : User)
    (a : Rat) (desc : String) (ttype : TransactionType) (ref : Option String)
    (genRef : String) (md : Option String)
    (hu : get_user_by_id db user_id = some u)
    (hnn : 0 ≤ u.wallet_balance) (hlt : u.wallet_balance < a) :
    debit_wallet db user_id a desc ttype ref genRef md =
      .error (.insufficientBalance u.wallet_balance a) ∧
    (WalletError.insufficientBalance u.wallet_balance a).shortfallOf =
      some (a - u.wallet_balance) := by
  have ha : ¬ a ≤ 0 := not_le.mpr (lt_of_le_of_lt hnn hlt)
  refine ⟨?_, rfl⟩
  simp [debit_wallet, hu, ha, hlt]

theorem c3_witness :
    (0 : Rat) ≤ 100 ∧ (100 : Rat) < 250 ∧
    debit_wallet (dbW 100) 1 250 ("Airtime purchase") .airtime none ("FB1") none =
      .error (.insufficientBalance 100 250) := by
  refine ⟨by norm_num, by norm_num, ?_⟩
  exact (c3_debit_insufficient_balance (dbW 100) 1 (userW 100) 250
    ("Airtime purchase") .airtime none ("FB1") none rfl
    (by norm_num [userW]) (by norm_num [userW])).1

/-! ### Claim C4 -/

/-- C4 counterexample: `update_transaction_status` has no terminal-state
guard — it moves a COMPLETED transaction back to PENDING (the repository's
own test `test_update_transaction_status` exercises exactly this). -/
theorem c4_counterexample :
    (find_transaction (dbWithTxn .completed) 1).map Transaction.status =
      some .completed ∧
    (update_transaction_status (dbWithTxn .completed) 1 .pending none none).toOption.map
      (fun r => (find_transaction r.1 1).map Transaction.status) =
      some (some .pending) := by
  exact ⟨rfl, rfl⟩

/-- C4 amended: only `refund_transaction` treats a terminal status as
terminal, and only for REVERSED — refunding an already-REVERSED
transaction is a no-op returning `none`; `update_transaction_status`
overwrites any status unconditionally. -/
theorem c4_amended_reversed_terminal_for_refund (db : DB)
    (transaction_id : Nat) (t : Transaction) (reason : String)
    (ht : find_transaction db transaction_id = some t)
    (hrev : t.status = .reversed) :
    refund_transaction db transaction_id reason = none := by
  simp [refund_transaction, ht, hrev]

theorem c4_witness :
    find_transaction (dbWithTxn .reversed) 1 = some (txnW .reversed) ∧
    (txnW .reversed).status = .reversed ∧
    refund_transaction (dbWithTxn .reversed) 1 ("again") = none := by
  refine ⟨rfl, rfl, ?_⟩
  exact c4_amended_reversed_terminal_for_refund (dbWithTxn .reversed) 1
    (txnW .reversed) ("again") rfl rfl

/-! ### Claim C9 -/

/-- C9: the network auto-detection bug.  For a canonical `234…` recipient
the code takes `phone[3:6]` — a 3-character slice — while every key of the
static table is 4 characters long, so the lookup always misses and the
claimed GLO mapping for an 0805-prefixed number comes out as the MTN
default. -/
theorem c9_detect_network_bug :
    detect_network ("2348051234567") = "MTN" ∧
    dictGet ("0805") networkMap = some ("GLO") := by
  exact ⟨rfl, rfl⟩

/-! ### Claim C5 -/

/-- C5 counterexample: a funding-webhook request whose processing raises at
the endpoint level (here: a body on which `request.json()` fails) is
answered with `HTTPException(500)` — an error response, not the success
acknowledgment. -/
theorem c5_counterexample :
    (receive_payrant_webhook dbEmpty (.error ("invalid json body")) ("G")).1 =
      .httpError 500 ("invalid json body") := by
  rfl

/-- C5 amended: only exceptions inside the per-event payment handlers are
swallowed: once the body parses, the endpoint acknowledges success whatever
the handlers did; an exception escaping to the endpoint's own handler is
re-raised as a 500 error response. -/
theorem c5_amended_parsed_body_is_acked (db : DB) (p : Payload)
    (genRef : String) :
    (receive_payrant_webhook db (.ok p) genRef).1 =
      .ack ("received") ("Webhook processed successfully") := by
  rfl

/-! ### Claim C10 -/

/-- C10 counterexample: replaying `credit_wallet` with the same reference
does not double-credit.  The second call aborts on the unique-reference
constraint of the transaction table: the balance stays at one credit and
only one transaction exists. -/
theorem c10_counterexample :
    credit_wallet (dbW 0) 1 100 ("Funding") (some ("R1")) ("G1") none =
      .ok (creditDB (dbW 0) 1 100 ("Funding") ("R1") none,
           creditTxn (dbW 0) 1 100 ("Funding") ("R1") none) ∧
    balance_of (creditDB (dbW 0) 1 100 ("Funding") ("R1") none) 1 = some 100 ∧
    (creditDB (dbW 0) 1 100 ("Funding") ("R1") none).transactions.length = 1 ∧
    credit_wallet (creditDB (dbW 0) 1 100 ("Funding") ("R1") none) 1 100
        ("Funding") (some ("R1")) ("G2") none =
      .error (.uniqueReference ("R1")) := by
  have hne : ¬ (("R1" : String) = "") := by decide
  refine ⟨?_, ?_, rfl, ?_⟩ <;>
    norm_num [credit_wallet, dbW, userW, get_user_by_id, chooseRef,
      update_user_balance, updateFirstUser, creditDB, creditTxn, balance_of,
      List.find?, hne]

/-- C10 amended: `credit_wallet` itself performs no reference lookup, and
the first credit with a fresh caller-supplied reference succeeds; but the
second credit with the same reference is stopped by the unique-reference
constraint at commit time with an integrity error, so no second transaction
is created and the balance is credited only once. -/
theorem c10_amended_same_reference_rejected (db : DB) (user_id : Nat)
    (u : User) (a : Rat) (desc : String) (r genRef genRef2 : String)
    (md md2 : Option String)
    (hu : get_user_by_id db user_id = some u) (ha : 0 < a) (hr : r ≠ "")
    (hfresh : ∀ t ∈ db.transactions, t.reference ≠ r) :
    ∃ db1 t1, credit_wallet db user_id a desc (some r) genRef md = .ok (db1, t1) ∧
      t1.reference = r ∧
      balance_of db1 user_id = some (u.wallet_balance + a) ∧
      db1.transactions.length = db.transactions.length + 1 ∧
      credit_wallet db1 user_id a desc (some r) genRef2 md2 =
        .error (.uniqueReference r) := by
  have ha0 : ¬ a ≤ 0 := not_le.mpr ha
  have hch : chooseRef (some r) genRef = r := by simp [chooseRef, hr]
  have hany := any_reference_false db.transactions r hfresh
  have hu' : db.users.find? (fun v => v.id == user_id) = some u := hu
  have hfind := find?_updateFirstUser db.users user_id
    (fun v => { v with wallet_balance := v.wallet_balance + a }) (fun v => rfl)
  refine ⟨creditDB db user_id a desc r md, creditTxn db user_id a desc r md,
    ?_, rfl, ?_, ?_, ?_⟩
  · simp [credit_wallet, get_user_by_id, hu', ha0, hch, hany,
      update_user_balance, creditDB, creditTxn]
  · simp [balance_of, get_user_by_id, creditDB, hfind, hu']
  · simp [creditDB]
  · have hch2 : chooseRef (some r) genRef2 = r := by simp [chooseRef, hr]
    have hu2 : List.find? (fun w => w.id == user_id)
        (updateFirstUser db.users user_id
          (fun v => { v with wallet_balance := v.wallet_balance + a })) =
        some { u with wallet_balance := u.wallet_balance + a } := by
      rw [hfind, hu']
      rfl
    simp [credit_wallet, get_user_by_id, hu2, ha0, hch2, creditDB, creditTxn,
      List.any_append]

theorem c10_witness :
    ∃ db1 t1,
      credit_wallet (dbW 0) 1 100 ("Funding") (some ("R1")) ("G1") none =
        .ok (db1, t1) ∧
      t1.reference = "R1" ∧
      balance_of db1 1 = some ((userW 0).wallet_balance + 100) ∧
      db1.transactions.length = (dbW 0).transactions.length + 1 ∧
      credit_wallet db1 1 100 ("Funding") (some ("R1")) ("G2") none =
        .error (.uniqueReference ("R1")) :=
  c10_amended_same_reference_rejected (dbW 0) 1 (userW 0) 100 ("Funding")
    ("R1") ("G1") ("G2") none none rfl (by norm_num) (by decide)
    (by simp [dbW])

/-! ### Claim C1 -/

/-- `handle_successful_payment` leaves the store unchanged whenever the
payload's reference already has a transaction: every branch before the
credit returns the store as-is, and the credit branch is guarded by the
duplicate lookup. -/
theorem handle_successful_payment_noop (db : DB) (p : Payload) (g : String)
    (h : ∃ t, existing_by_reference db (payment_reference p) = some t) :
    handle_successful_payment db p g = db := by
  obtain ⟨t, ht⟩ := h
  simp only [handle_successful_payment]
  repeat' split
  all_goals simp_all

/-- C1: replaying a successful funding webhook whose payload carries a
reference that already has a transaction is acknowledged with the success
body and changes neither the users (balances) nor the transactions: the
duplicate is detected by the reference lookup before crediting. -/
theorem c1_duplicate_funding_webhook_noop (db : DB) (p : Payload)
    (genRef : String) (r : String) (t : Transaction)
    (hev : successEvents.contains (event_type_of p) = true)
    (href : payment_reference p = some r)
    (hdup : get_transaction_by_reference db r = some t) :
    (receive_payrant_webhook db (.ok p) genRef).1 =
      .ack ("received") ("Webhook processed successfully") ∧
    (receive_payrant_webhook db (.ok p) genRef).2.users = db.users ∧
    (receive_payrant_webhook db (.ok p) genRef).2.transactions =
      db.transactions := by
  have hnoop : ∀ dbX : DB, dbX.transactions = db.transactions →
      handle_successful_payment dbX p genRef = dbX := by
    intro dbX hX
    apply handle_successful_payment_noop
    refine ⟨t, ?_⟩
    simp only [existing_by_reference, href]
    unfold get_transaction_by_reference at hdup ⊢
    rw [hX]
    exact hdup
  have hr1 := hnoop
    { users := db.users, transactions := db.transactions,
      next_txn_id := db.next_txn_id,
      webhook_logs := db.webhook_logs ++ [{ id := db.next_log_id, processed := false }],
      next_log_id := db.next_log_id + 1 } rfl
  refine ⟨rfl, ?_, ?_⟩ <;>
  · simp only [receive_payrant_webhook, hev, if_true]
    rw [hr1]

theorem c2_debit_refund_roundtrip (db : DB) (user_id : Nat) (u : User)
    (a : Rat) (desc reason : String) (ttype : TransactionType)
    (genRef : String) (md : Option String)
    (hu : get_user_by_id db user_id = some u)
    (ha : 0 < a) (hb : a ≤ u.wallet_balance)
    (hid : ∀ t ∈ db.transactions, t.id < db.next_txn_id)
    (hrefs : ∀ t ∈ db.transactions, t.reference ≠ genRef) :
    debit_wallet db user_id a desc ttype none genRef md =
      .ok (debitDB db user_id a desc ttype genRef md,
           debitTxn db user_id a desc ttype genRef md) ∧
    refund_transaction (debitDB db user_id a desc ttype genRef md)
        (debitTxn db user_id a desc ttype genRef md).id reason =
      some (refundDB (debitDB db user_id a desc ttype genRef md)
              (debitTxn db user_id a desc ttype genRef md) reason,
            refundTxn (debitTxn db user_id a desc ttype genRef md) reason) ∧
    balance_of (refundDB (debitDB db user_id a desc ttype genRef md)
        (debitTxn db user_id a desc ttype genRef md) reason) user_id =
      some u.wallet_balance ∧
    (refundTxn (debitTxn db user_id a desc ttype genRef md) reason).status =
      .reversed ∧
    (refundTxn (debitTxn db user_id a desc ttype genRef md) reason).provider_response =
      some ("REFUNDED: " ++ reason) := by
  have hu' : db.users.find? (fun v => v.id == user_id) = some u := hu
  have ha0 : ¬ a ≤ 0 := not_le.mpr ha
  have hnlt : ¬ (u.wallet_balance < a) := not_lt.mpr hb
  have hsub : ¬ (("subtract" : String) = "add") := by decide
  have hany := any_reference_false db.transactions genRef hrefs
  have hfindSub := find?_updateFirstUser db.users user_id
    (fun v => { v with wallet_balance := v.wallet_balance - a }) (fun v => rfl)
  have hfindTxn : find_transaction (debitDB db user_id a desc ttype genRef md)
      db.next_txn_id = some (debitTxn db user_id a desc ttype genRef md) := by
    unfold find_transaction debitDB
    rw [find?_append_of_none _ _ _
      (find?_eq_none_of_lt_id db.transactions db.next_txn_id hid)]
    simp [List.find?, debitTxn]
  refine ⟨?_, ?_, ?_, rfl, rfl⟩
  · simp [debit_wallet, get_user_by_id, hu', ha0, hnlt, hany, chooseRef,
      update_user_balance, hsub, debitDB, debitTxn]
  · have hfindSub2 : List.find? (fun w => w.id == user_id)
        (updateFirstUser db.users user_id
          (fun v => { v with wallet_balance := v.wallet_balance - a })) =
        some { u with wallet_balance := u.wallet_balance - a } := by
      rw [hfindSub, hu']
      rfl
    have hfindTxn2 : find_transaction (debitDB db user_id a desc ttype genRef md)
        (debitTxn db user_id a desc ttype genRef md).id =
        some (debitTxn db user_id a desc ttype genRef md) := hfindTxn
    simp only [refund_transaction, hfindTxn2]
    simp [debitTxn, refundDB, refundTxn, update_user_balance, get_user_by_id,
      debitDB, hfindSub2]
  · have hfindSub2 : List.find? (fun w => w.id == user_id)
        (updateFirstUser db.users user_id
          (fun v => { v with wallet_balance := v.wallet_balance - a })) =
        some { u with wallet_balance := u.wallet_balance - a } := by
      rw [hfindSub, hu']
      rfl
    have hfindAdd := find?_updateFirstUser
      (updateFirstUser db.users user_id
        (fun v => { v with wallet_balance := v.wallet_balance - a }))
      user_id
      (fun v => { v with wallet_balance := v.wallet_balance + a }) (fun v => rfl)
    simp [balance_of, get_user_by_id, refundDB, debitDB, debitTxn, refundTxn,
      hfindAdd, hfindSub2, sub_add_cancel]

theorem c2_witness :
    debit_wallet (dbW 500) 1 200 ("Airtime purchase") .airtime none ("FB2") none =
      .ok (debitDB (dbW 500) 1 200 ("Airtime purchase") .airtime ("FB2") none,
           debitTxn (dbW 500) 1 200 ("Airtime purchase") .airtime ("FB2") none) ∧
    refund_transaction (debitDB (dbW 500) 1 200 ("Airtime purchase") .airtime ("FB2") none)
        (debitTxn (dbW 500) 1 200 ("Airtime purchase") .airtime ("FB2") none).id
        ("vendor failure") =
      some (refundDB (debitDB (dbW 500) 1 200 ("Airtime purchase") .airtime ("FB2") none)
              (debitTxn (dbW 500) 1 200 ("Airtime purchase") .airtime ("FB2") none)
              ("vendor failure"),
            refundTxn (debitTxn (dbW 500) 1 200 ("Airtime purchase") .airtime ("FB2") none)
              ("vendor failure")) ∧
    balance_of (refundDB (debitDB (dbW 500) 1 200 ("Airtime purchase") .airtime ("FB2") none)
        (debitTxn (dbW 500) 1 200 ("Airtime purchase") .airtime ("FB2") none)
        ("vendor failure")) 1 =
      some (userW 500).wallet_balance ∧
    (refundTxn (debitTxn (dbW 500) 1 200 ("Airtime purchase") .airtime ("FB2") none)
        ("vendor failure")).status = .reversed ∧
    (refundTxn (debitTxn (dbW 500) 1 200 ("Airtime purchase") .airtime ("FB2") none)
        ("vendor failure")).provider_response =
      some ("REFUNDED: " ++ "vendor failure") :=
  c2_debit_refund_roundtrip (dbW 500) 1 (userW 500) 200 ("Airtime purchase")
    ("vendor failure") .airtime ("FB2") none rfl (by norm_num)
    (by norm_num [userW]) (by simp [dbW]) (by simp [dbW])

theorem c1_witness :
    (receive_payrant_webhook (dbWithTxn .completed) (.ok payloadDup) ("G")).1 =
      .ack ("received") ("Webhook processed successfully") ∧
    (receive_payrant_webhook (dbWithTxn .completed) (.ok payloadDup) ("G")).2.users =
      (dbWithTxn .completed).users ∧
    (receive_payrant_webhook (dbWithTxn .completed) (.ok payloadDup) ("G")).2.transactions =
      (dbWithTxn .completed).transactions :=
  c1_duplicate_funding_webhook_noop (dbWithTxn .completed) payloadDup ("G")
    ("R1") (txnW .completed) (by rfl) rfl rfl

/-! ### Claim C6 -/

/-- C6: on every input string the parser's phone normalizer agrees with the
classification the specification describes — strip non-digits, then: 13
digits starting `234` unchanged; 11 digits starting `0` with the `0`
replaced by `234`; exactly 10 digits with `234` prepended; anything else a
failure.  The spec-side classifier only produces 13-digit `234…` outputs by
construction. -/
theorem c6_normalize_phone_matches_spec (phone : List Char) :
    normalize_phone phone = normalize_phone_spec phone := by
  unfold normalize_phone normalize_phone_spec
  rcases phone with _ | ⟨c, cs⟩
  · rfl
  · simp only [List.isEmpty_cons, Bool.false_eq_true, if_false]
    simp [Bool.and_comm]

/-! ### Claim C7: helper lemmas -/

theorem digit_not_space (c : Char) (h : isDigitCh c = true) :
    pyIsSpace c = false := by
  cases hsp : pyIsSpace c
  · rfl
  · exfalso
    simp only [pyIsSpace, Bool.or_eq_true, beq_iff_eq] at hsp
    simp only [isDigitCh, Bool.and_eq_true, decide_eq_true_eq] at h
    rcases hsp with ((((rfl | rfl) | rfl) | rfl) | rfl) | rfl <;>
      exact absurd h.1 (by decide)

theorem digitCh_isDigit (d : Nat) (h : d < 10) : isDigitCh (digitCh d) = true := by
  interval_cases d <;> decide

theorem charVal_digitCh (d : Nat) (h : d < 10) : charVal (digitCh d) = d := by
  interval_cases d <;> decide

theorem renderNat_digits (a : Nat) : ∀ c ∈ renderNat a, isDigitCh c = true := by
  intro c hc
  unfold renderNat at hc
  by_cases ha : a = 0
  · simp [ha] at hc
    subst hc
    decide
  · simp only [ha, if_false, List.mem_reverse, List.mem_map] at hc
    obtain ⟨d, hd, rfl⟩ := hc
    exact digitCh_isDigit d (Nat.digits_lt_base (by norm_num) hd)

theorem renderNat_ne_nil (a : Nat) : renderNat a ≠ [] := by
  unfold renderNat
  by_cases ha : a = 0
  · simp [ha]
  · simp [ha, Nat.digits_ne_nil_iff_ne_zero]

theorem foldl_digits_aux (L : List Nat) (acc : Nat) (h : ∀ d ∈ L, d < 10) :
    List.foldl (fun acc c => 10 * acc + charVal c) acc ((L.map digitCh).reverse) =
      acc * 10 ^ L.length + Nat.ofDigits 10 L := by
  induction L generalizing acc with
  | nil => simp
  | cons d tl ih =>
    have hd : d < 10 := h d (List.mem_cons_self d tl)
    have htl : ∀ x ∈ tl, x < 10 := fun x hx => h x (List.mem_cons_of_mem d hx)
    rw [List.map_cons, List.reverse_cons, List.foldl_append, ih acc htl]
    simp only [List.foldl_cons, List.foldl_nil, charVal_digitCh d hd,
      Nat.ofDigits_cons, List.length_cons]
    ring

theorem digitsVal_renderNat (a : Nat) : digitsVal (renderNat a) = a := by
  by_cases ha : a = 0
  · subst ha
    decide
  · unfold digitsVal renderNat
    rw [if_neg ha,
      foldl_digits_aux (Nat.digits 10 a) 0
        (fun d hd => Nat.digits_lt_base (by norm_num) hd)]
    simp [Nat.ofDigits_digits]

theorem lit_eq (pat : List Char) : ∀ s r, lit pat s = some r → s = pat ++ r := by
  induction pat with
  | nil =>
    intro s r h
    simp only [lit, Option.some.injEq] at h
    simp [h]
  | cons p ps ih =>
    intro s r h
    cases s with
    | nil => simp [lit] at h
    | cons c cs =>
      simp only [lit] at h
      by_cases hc : c == p
      · rw [if_pos hc] at h
        have hcp : c = p := by simpa using hc
        subst hcp
        simp [ih cs r h]
      · rw [if_neg hc] at h
        exact absurd h (by simp)

theorem lit_sfx (pat s r : List Char) (h : lit pat s = some r) : r <:+ s :=
  ⟨pat, (lit_eq pat s r h).symm⟩

theorem spanP_snd_sfx (p : Char → Bool) (s : List Char) : (spanP p s).2 <:+ s := by
  induction s with
  | nil => simp [spanP]
  | cons c cs ih =>
    by_cases h : p c
    · simp only [spanP, h, if_true]
      exact ih.trans (List.suffix_cons c cs)
    · simp [spanP, h]

theorem space0_sfx (s : List Char) : space0 s <:+ s := spanP_snd_sfx pyIsSpace s

theorem space1_sfx (s r : List Char) (h : space1 s = some r) : r <:+ s := by
  unfold space1 at h
  rcases hsp : spanP pyIsSpace s with ⟨t, u⟩
  rw [hsp] at h
  cases t with
  | nil => simp at h
  | cons x xs =>
    simp only [Option.some.injEq] at h
    subst h
    have := spanP_snd_sfx pyIsSpace s
    rwa [hsp] at this

theorem digits1_sfx (s d r : List Char) (h : digits1 s = some (d, r)) :
    r <:+ s := by
  unfold digits1 at h
  rcases hsp : spanP isDigitCh s with ⟨t, u⟩
  rw [hsp] at h
  cases t with
  | nil => simp at h
  | cons x xs =>
    simp only [Option.some.injEq, Prod.mk.injEq] at h
    have := spanP_snd_sfx isDigitCh s
    rw [hsp] at this
    rw [← h.2]
    exact this

/-- A successful match of airtime pattern 1's tail consumed the literal
`for`, so the input contains an `f`. -/
theorem p1tail_mem (d s r₁) (h : p1tail d s = some r₁) : 'f' ∈ s := by
  unfold p1tail at h
  cases h1 : lit ['a', 'i', 'r', 't', 'i', 'm', 'e'] s with
  | none => simp only [h1] at h; exact absurd h (by simp)
  | some s1 =>
    simp only [h1] at h
    cases h2 : space1 s1 with
    | none => simp only [h2] at h; exact absurd h (by simp)
    | some s2 =>
      simp only [h2] at h
      cases h3 : lit ['f', 'o', 'r'] s2 with
      | none => simp only [h3] at h; exact absurd h (by simp)
      | some s3 =>
        have hf2 : 'f' ∈ s2 := by
          rw [lit_eq _ _ _ h3]
          exact List.mem_cons_self _ _
        have hf1 : 'f' ∈ s1 := List.IsSuffix.mem hf2 (space1_sfx s1 s2 h2)
        rw [lit_eq _ _ _ h1]
        exact List.mem_append_right _ hf1

theorem p1core_mem (s r₁) (h : p1core s = some r₁) : 'f' ∈ s := by
  unfold p1core at h
  cases hd : digits1 s with
  | none => simp only [hd] at h; exact absurd h (by simp)
  | some dr =>
    obtain ⟨d, s1⟩ := dr
    have hs1 : s1 <:+ s := digits1_sfx s d s1 hd
    have hup : ∀ c, c ∈ space0 s1 → c ∈ s := fun c hc =>
      List.IsSuffix.mem hc ((space0_sfx s1).trans hs1)
    simp only [hd] at h
    cases hn : lit ['n', 'a', 'i', 'r', 'a'] (space0 s1) with
    | none =>
      simp only [hn] at h
      exact hup _ (p1tail_mem d (space0 s1) r₁ h)
    | some s3 =>
      simp only [hn] at h
      cases h4 : space1 s3 with
      | none =>
        simp only [h4] at h
        exact hup _ (p1tail_mem d (space0 s1) r₁ h)
      | some s4 =>
        simp only [h4] at h
        cases h5 : p1tail d s4 with
        | none =>
          simp only [h5] at h
          exact hup _ (p1tail_mem d (space0 s1) r₁ h)
        | some r5 =>
          have hf4 : 'f' ∈ s4 := p1tail_mem d s4 r5 h5
          have hf3 : 'f' ∈ s3 := List.IsSuffix.mem hf4 (space1_sfx s3 s4 h4)
          exact hup _ (List.IsSuffix.mem hf3 (lit_sfx _ _ _ hn))

theorem p1At_mem : ∀ (s : List Char) (r₁), p1At s = some r₁ → 'f' ∈ s := by
  intro s r₁ h
  unfold p1At at h
  cases hb : lit ['b', 'u', 'y'] s with
  | none =>
    simp only [hb] at h
    exact p1core_mem s r₁ h
  | some s1 =>
    simp only [hb] at h
    cases hsp : space1 s1 with
    | none =>
      simp only [hsp] at h
      exact p1core_mem s r₁ h
    | some s2 =>
      simp only [hsp] at h
      cases hc : p1core s2 with
      | none =>
        simp only [hc] at h
        exact p1core_mem s r₁ h
      | some r2 =>
        have hf2 : 'f' ∈ s2 := p1core_mem s2 r2 hc
        have hf1 : 'f' ∈ s1 := List.IsSuffix.mem hf2 (space1_sfx s1 s2 hsp)
        exact List.IsSuffix.mem hf1 (lit_sfx _ _ _ hb)

/-- A successful match of airtime pattern 2 consumed `for` or `to`, so the
input contains an `o`. -/
theorem p2At_mem : ∀ (s : List Char) (r₁), p2At s = some r₁ → 'o' ∈ s := by
  intro s r₁ h
  unfold p2At at h
  cases h1 : lit ['a', 'i', 'r', 't', 'i', 'm', 'e'] s with
  | none => simp only [h1] at h; exact absurd h (by simp)
  | some s1 =>
    simp only [h1] at h
    cases h2 : space1 s1 with
    | none => simp only [h2] at h; exact absurd h (by simp)
    | some s2 =>
      simp only [h2] at h
      cases h3 : digits1 s2 with
      | none => simp only [h3] at h; exact absurd h (by simp)
      | some dr =>
        obtain ⟨d, s3⟩ := dr
        simp only [h3] at h
        cases h4 : space1 s3 with
        | none => simp only [h4] at h; exact absurd h (by simp)
        | some s4 =>
          simp only [h4] at h
          have ho4 : 'o' ∈ s4 := by
            cases hf : lit ['f', 'o', 'r'] s4 with
            | some s5 =>
              rw [lit_eq _ _ _ hf]
              simp
            | none =>
              simp only [hf] at h
              cases ht : lit ['t', 'o'] s4 with
              | none => simp only [ht] at h; exact absurd h (by simp)
              | some s5 =>
                rw [lit_eq _ _ _ ht]
                simp
          have ho3 : 'o' ∈ s3 := List.IsSuffix.mem ho4 (space1_sfx s3 s4 h4)
          have ho2 : 'o' ∈ s2 := List.IsSuffix.mem ho3 (digits1_sfx s2 d s3 h3)
          have ho1 : 'o' ∈ s1 := List.IsSuffix.mem ho2 (space1_sfx s1 s2 h2)
          rw [lit_eq _ _ _ h1]
          exact List.mem_append_right _ ho1

/-- `re.search` succeeds immediately when the matcher succeeds at the first
position. -/
theorem reSearch_head {α : Type} (m : List Char → Option α) (s : List Char)
    (r : α) (h : m s = some r) : reSearch m s = some r := by
  cases s with
  | nil => simpa [reSearch] using h
  | cons c cs => simp [reSearch, h]

/-- `re.search` fails when the matcher needs a character the input lacks. -/
theorem reSearch_none {α : Type} (m : List Char → Option α) (c : Char)
    (hm : ∀ t r, m t = some r → c ∈ t) :
    ∀ s, c ∉ s → reSearch m s = none := by
  intro s
  induction s with
  | nil =>
    intro _
    cases h : m [] with
    | none => simpa [reSearch] using h
    | some r => exact absurd (hm [] r h) (by simp)
  | cons x xs ih =>
    intro hc
    have hx : m (x :: xs) = none := by
      cases h : m (x :: xs) with
      | none => rfl
      | some r => exact absurd (hm _ r h) hc
    simp [reSearch, hx, ih (fun hmem => hc (List.mem_cons_of_mem x hmem))]

theorem not_mem_buyMsg (a : Nat) (c : Char) (hd : isDigitCh c = false)
    (h : c ∉ (['b', 'u', 'y', ' ', 'a', 'i', 'r', 't', 'i', 'm', 'e'] : List Char)) :
    c ∉ buyAirtimeMsg a := by
  intro hc
  unfold buyAirtimeMsg at hc
  rcases List.mem_append.mp hc with h12 | h3
  · rcases List.mem_append.mp h12 with h1 | h2
    · refine h ?_
      simp only [List.mem_cons, List.not_mem_nil, or_false] at h1 ⊢
      tauto
    · exact absurd (renderNat_digits a c h2) (by simp [hd])
  · refine h ?_
    simp only [List.mem_cons, List.not_mem_nil, or_false] at h3 ⊢
    tauto

theorem spanP_cons_neg (p : Char → Bool) (c : Char) (cs : List Char)
    (h : p c = false) : spanP p (c :: cs) = ([], c :: cs) := by
  simp [spanP, h]

theorem spanP_all_append (p : Char → Bool) (l r : List Char)
    (hl : ∀ c ∈ l, p c = true) (hr : spanP p r = ([], r)) :
    spanP p (l ++ r) = (l, r) := by
  induction l with
  | nil => simpa using hr
  | cons c cs ih =>
    have hc := hl c (List.mem_cons_self c cs)
    have ih2 := ih (fun x hx => hl x (List.mem_cons_of_mem c hx))
    simp [spanP, hc, ih2]

theorem digits1_all_append (l r : List Char) (hne : l ≠ [])
    (hl : ∀ c ∈ l, isDigitCh c = true) (hr : spanP isDigitCh r = ([], r)) :
    digits1 (l ++ r) = some (l, r) := by
  unfold digits1
  rw [spanP_all_append _ _ _ hl hr]
  cases l with
  | nil => exact absurd rfl hne
  | cons x xs => rfl

/-- Airtime pattern 3 matches `buy {digits} airtime` at position 0,
capturing the digits and no phone. -/
theorem p3At_buyMsg (a : Nat) :
    p3At (buyAirtimeMsg a) = some (renderNat a, none) := by
  obtain ⟨d0, ds0, hds⟩ := List.exists_cons_of_ne_nil (renderNat_ne_nil a)
  have hdig := renderNat_digits a
  have hd0 : isDigitCh d0 = true := by
    refine hdig d0 ?_
    rw [hds]
    exact List.mem_cons_self _ _
  have h1 : lit ['b', 'u', 'y'] (buyAirtimeMsg a) =
      some (' ' :: (renderNat a ++ [' ', 'a', 'i', 'r', 't', 'i', 'm', 'e'])) := rfl
  have hsp0 : spanP pyIsSpace
      (renderNat a ++ [' ', 'a', 'i', 'r', 't', 'i', 'm', 'e']) =
      ([], renderNat a ++ [' ', 'a', 'i', 'r', 't', 'i', 'm', 'e']) := by
    rw [hds, List.cons_append]
    exact spanP_cons_neg _ _ _ (digit_not_space d0 hd0)
  have h2 : space1 (' ' :: (renderNat a ++ [' ', 'a', 'i', 'r', 't', 'i', 'm', 'e'])) =
      some (renderNat a ++ [' ', 'a', 'i', 'r', 't', 'i', 'm', 'e']) := by
    unfold space1
    have : pyIsSpace ' ' = true := by decide
    simp [spanP, this, hsp0]
  have h3 : digits1 (renderNat a ++ [' ', 'a', 'i', 'r', 't', 'i', 'm', 'e']) =
      some (renderNat a, [' ', 'a', 'i', 'r', 't', 'i', 'm', 'e']) :=
    digits1_all_append _ _ (renderNat_ne_nil a) hdig
      (spanP_cons_neg _ _ _ (by decide))
  have h4 : space0 ([' ', 'a', 'i', 'r', 't', 'i', 'm', 'e'] : List Char) =
      ['a', 'i', 'r', 't', 'i', 'm', 'e'] := rfl
  have hcore : p3core (renderNat a ++ [' ', 'a', 'i', 'r', 't', 'i', 'm', 'e']) =
      some (renderNat a, none) := by
    simp only [p3core, h3, h4]
    rfl
  simp only [p3At, h1, h2, hcore]

theorem airtimeSearch_buyMsg (a : Nat) :
    airtimeSearch (buyAirtimeMsg a) = some (renderNat a, none) := by
  have hf : ('f' : Char) ∉ buyAirtimeMsg a :=
    not_mem_buyMsg a 'f' (by decide) (by decide)
  have ho : ('o' : Char) ∉ buyAirtimeMsg a :=
    not_mem_buyMsg a 'o' (by decide) (by decide)
  have h1 : reSearch p1At (buyAirtimeMsg a) = none :=
    reSearch_none p1At 'f' p1At_mem _ hf
  have h2 : reSearch p2At (buyAirtimeMsg a) = none :=
    reSearch_none p2At 'o' p2At_mem _ ho
  have h3 : reSearch p3At (buyAirtimeMsg a) = some (renderNat a, none) :=
    reSearch_head _ _ _ (p3At_buyMsg a)
  simp only [airtimeSearch, h1, h2, h3]

theorem dropWhile_eq_self_of_head (p : Char → Bool) (l : List Char)
    (h : ∀ c, l.head? = some c → p c = false) : l.dropWhile p = l := by
  cases l with
  | nil => rfl
  | cons c cs => simp [List.dropWhile_cons, h c rfl]

theorem pyStrip_eq_self (s : List Char)
    (h1 : ∀ c, s.head? = some c → pyIsSpace c = false)
    (h2 : ∀ c, s.getLast? = some c → pyIsSpace c = false) : pyStrip s = s := by
  unfold pyStrip
  rw [dropWhile_eq_self_of_head _ _ h1]
  rw [dropWhile_eq_self_of_head _ _
    (fun c hc => h2 c (by rwa [List.head?_reverse] at hc))]
  exact List.reverse_reverse s

theorem map_self_of (f : Char → Char) (l : List Char)
    (h : ∀ c ∈ l, f c = c) : l.map f = l := by
  induction l with
  | nil => rfl
  | cons c cs ih =>
    rw [List.map_cons, h c (List.mem_cons_self c cs),
      ih (fun x hx => h x (List.mem_cons_of_mem c hx))]

theorem buyMsg_getLast (a : Nat) : (buyAirtimeMsg a).getLast? = some 'e' := by
  rw [List.getLast?_eq_head?_reverse]
  unfold buyAirtimeMsg
  rw [List.reverse_append, List.reverse_append]
  rfl

theorem pyStrip_buyMsg (a : Nat) : pyStrip (buyAirtimeMsg a) = buyAirtimeMsg a := by
  apply pyStrip_eq_self
  · intro c hc
    have hb : (buyAirtimeMsg a).head? = some 'b' := rfl
    rw [hb] at hc
    have hcb : 'b' = c := by simpa using hc
    subst hcb
    decide
  · intro c hc
    rw [buyMsg_getLast a] at hc
    have hce : 'e' = c := by simpa using hc
    subst hce
    decide

theorem pyLowerChar_digit (c : Char) (h : isDigitCh c = true) :
    pyLowerChar c = c := by
  simp only [isDigitCh, Bool.and_eq_true, decide_eq_true_eq] at h
  have hno : ¬ ((65 ≤ c.toNat && c.toNat ≤ 90) = true) := by
    simp only [Bool.and_eq_true, decide_eq_true_eq, not_and, not_le]
    intro h65
    omega
  simp [pyLowerChar, hno]

theorem pyLower_buyMsg (a : Nat) : pyLower (buyAirtimeMsg a) = buyAirtimeMsg a := by
  apply map_self_of
  intro c hc
  unfold buyAirtimeMsg at hc
  rcases List.mem_append.mp hc with h12 | h3
  · rcases List.mem_append.mp h12 with h1 | h2
    · simp only [List.mem_cons, List.not_mem_nil, or_false] at h1
      rcases h1 with rfl | rfl | rfl | rfl <;> decide
    · exact pyLowerChar_digit c (renderNat_digits a c h2)
  · simp only [List.mem_cons, List.not_mem_nil, or_false] at h3
    rcases h3 with rfl | rfl | rfl | rfl | rfl | rfl | rfl | rfl <;> decide

/-- Where `parse` sends `f"buy {a} airtime"`: the fixed-phrase classes miss,
airtime patterns 1 and 2 miss (the message has no `f`/`o`), pattern 3
captures the digits, and the amount-bounds ladder decides the result. -/
theorem parse_buyMsg (a : Nat) :
    parse (buyAirtimeMsg a) =
      (if a < 50 then
        { emptyResult .airtime (buyAirtimeMsg a) ("high") with
          confidence := "low",
          error := some ("Amount too low. Minimum is ₦50") }
       else if 50000 < a then
        { emptyResult .airtime (buyAirtimeMsg a) ("high") with
          confidence := "low",
          error := some ("Amount too high. Maximum is ₦50,000") }
       else
        { emptyResult .airtime (buyAirtimeMsg a) ("high") with
          amount := some a }) := by
  have hne : (buyAirtimeMsg a).isEmpty = false := rfl
  have hG : matchGreeting (buyAirtimeMsg a) = false := rfl
  have hH : matchHelp (buyAirtimeMsg a) = false := rfl
  have hB : matchBalance (buyAirtimeMsg a) = false := rfl
  have hHi : matchHistory (buyAirtimeMsg a) = false := rfl
  have hR : matchReferral (buyAirtimeMsg a) = false := rfl
  have hair : parseAirtime (buyAirtimeMsg a) =
      some (if a < 50 then
        { emptyResult .airtime (buyAirtimeMsg a) ("high") with
          confidence := "low",
          error := some ("Amount too low. Minimum is ₦50") }
       else if 50000 < a then
        { emptyResult .airtime (buyAirtimeMsg a) ("high") with
          confidence := "low",
          error := some ("Amount too high. Maximum is ₦50,000") }
       else
        { emptyResult .airtime (buyAirtimeMsg a) ("high") with
          amount := some a }) := by
    simp only [parseAirtime, airtimeSearch_buyMsg a, digitsVal_renderNat a]
  simp [parse, hne, pyStrip_buyMsg a, pyLower_buyMsg a, hG, hH, hB, hHi, hR,
    hair]

/-- C7: parsing `buy {a} airtime` yields AIRTIME with amount `a` and high
confidence exactly when 50 ≤ a ≤ 50000; out-of-bounds amounts yield AIRTIME
with low confidence, an error naming the violated bound, and no amount
field. -/
theorem c7_airtime_amount_bounds (a : Nat) :
    ((50 ≤ a ∧ a ≤ 50000) →
      parse (buyAirtimeMsg a) =
        { emptyResult .airtime (buyAirtimeMsg a) ("high") with
          amount := some a }) ∧
    ((a < 50 ∨ 50000 < a) →
      parse (buyAirtimeMsg a) =
        { emptyResult .airtime (buyAirtimeMsg a) ("high") with
          confidence := "low",
          error := some (if a < 50 then "Amount too low. Minimum is ₦50"
                         else "Amount too high. Maximum is ₦50,000") }) := by
  constructor
  · rintro ⟨h1, h2⟩
    rw [parse_buyMsg, if_neg (by omega), if_neg (by omega)]
  · intro h
    rw [parse_buyMsg]
    rcases h with h | h
    · simp only [if_pos h]
    · have hn : ¬ a < 50 := by omega
      simp only [if_neg hn, if_pos h]

theorem c7_witness :
    parse (buyAirtimeMsg 1000) =
      { emptyResult .airtime (buyAirtimeMsg 1000) ("high") with
        amount := some 1000 } ∧
    parse (buyAirtimeMsg 10) =
      { emptyResult .airtime (buyAirtimeMsg 10) ("high") with
        confidence := "low",
        error := some ("Amount too low. Minimum is ₦50") } := by
  constructor
  · exact (c7_airtime_amount_bounds 1000).1 ⟨by norm_num, by norm_num⟩
  · have h := (c7_airtime_amount_bounds 10).2 (Or.inl (by norm_num))
    simpa using h

/-! ### Claim C8 -/

/-- C8 counterexample: the parser classifies the bare word `airtime` as
UNKNOWN, not as AIRTIME-without-amount — every airtime pattern requires a
`\d+` amount, so a message with no amount cannot match. -/
theorem c8_counterexample :
    parse ['a', 'i', 'r', 't', 'i', 'm', 'e'] =
      emptyResult .unknown ['a', 'i', 'r', 't', 'i', 'm', 'e'] ("low") := by
  decide

/-- C8 amended: an airtime message with no amount at all (the bare word
`airtime`) is classified UNKNOWN; the AIRTIME result with no amount field —
the branch on which the caller prompts for an amount — is produced when an
airtime pattern matches with an out-of-bounds amount (here `buy 10
airtime`), with the error field also set. -/
theorem c8_amended_no_amount_is_unknown :
    parse ['a', 'i', 'r', 't', 'i', 'm', 'e'] =
      emptyResult .unknown ['a', 'i', 'r', 't', 'i', 'm', 'e'] ("low") ∧
    parse ['b', 'u', 'y', ' ', '1', '0', ' ', 'a', 'i', 'r', 't', 'i', 'm', 'e'] =
      { emptyResult .airtime
          ['b', 'u', 'y', ' ', '1', '0', ' ', 'a', 'i', 'r', 't', 'i', 'm', 'e']
          ("low") with
        error := some ("Amount too low. Minimum is ₦50") } := by
  constructor
  · decide
  · decide

end ForBill
